import Mathlib

/-!
Verification of the Prometheus Pushgateway charm library
(lib/charms/prometheus_pushgateway_k8s/v0/pushgateway.py) and the
testing charm consumer (tests/testingcharm/src/charm.py).

The embedding models:
  - Python scalar values (PyValue) as far as send_metric touches them:
    isinstance checks, str() rendering, ASCII encoding.  Python floats are
    modelled as a decimal mantissa/exponent form plus the non-finite
    values inf, -inf and nan; their str() rendering is modelled as a
    decimal rendering (always ASCII, as in Python).
  - The JSON wire format: json.dumps output of the fixed payload shapes
    the provider and tests emit, and a json.loads parser (loads).  JSON
    numbers are modelled as integers (this protocol only ever carries
    integer ports); lone surrogate escapes are rejected by the model.
  - The requirer decode path _pushgateway_url / is_ready and send_metric,
    as pure functions of the relation-data snapshot, with the HTTP
    transport outcome passed in as an oracle and the list of issued
    requests returned explicitly.
-/

/-- Exceptions that can escape the modelled Python code paths. -/
inductive PyExn where
  | typeError
  | keyError
  | valueError (msg : String)
  | httpError (code : Nat)
  | urlError
  | unicodeEncodeError
  | jsonDecodeError
  deriving DecidableEq, Repr

/-- Python float values: a finite value modelled as mantissa times a power
of ten, or one of the non-finite IEEE values. -/
inductive PFloat where
  | finite (m : Int) (e : Int)
  | inf
  | ninf
  | nan
  deriving DecidableEq, Repr

/-- Python runtime values, as far as send_metric distinguishes them. -/
inductive PyValue where
  | str (s : String)
  | int (i : Int)
  | bool (b : Bool)
  | float (f : PFloat)
  | complex (re im : Int)
  | noneV
  deriving DecidableEq, Repr

/-- Little-endian base-ten digits with explicit fuel (the fuel only serves
termination; any fuel at or above the number is enough). -/
def decDigitsAux : Nat → Nat → List Nat
  | 0, _ => []
  | _ + 1, 0 => []
  | fuel + 1, n + 1 => (n + 1) % 10 :: decDigitsAux fuel ((n + 1) / 10)

/-- Little-endian base-ten digits of a natural number. -/
def decDigits (n : Nat) : List Nat := decDigitsAux n n

/-- Decimal digits of a natural number, most significant first. -/
def natToDec (n : Nat) : List Char :=
  if n = 0 then [Char.ofNat 48]
  else ((decDigits n).reverse).map (fun d => Char.ofNat (48 + d))

/-- Decimal rendering of an integer, as Python str() renders int. -/
def intToDec (i : Int) : List Char :=
  if i < 0 then Char.ofNat 45 :: natToDec i.natAbs else natToDec i.natAbs

/-- Python str() of a float, modelled decimally.  Finite values render as
mantissa, the letter e, exponent; non-finite values render as Python does. -/
def pfloatStr : PFloat → List Char
  | .finite m e => intToDec m ++ ['e'] ++ intToDec e
  | .inf => ['i', 'n', 'f']
  | .ninf => ['-', 'i', 'n', 'f']
  | .nan => ['n', 'a', 'n']

/-- Python str() of a value, as used by f-string interpolation. -/
def pyStr : PyValue → String
  | .str s => s
  | .int i => ⟨intToDec i⟩
  | .bool true => "True"
  | .bool false => "False"
  | .float f => ⟨pfloatStr f⟩
  | .complex re im => "(" ++ ⟨intToDec re⟩ ++ "+" ++ ⟨intToDec im⟩ ++ "j)"
  | .noneV => "None"

/-- Python str.isascii(): every code point is below 128. -/
def strIsAscii (s : String) : Bool := s.data.all (fun c => c.toNat < 128)

/-- Python bytes = text.encode("ascii"): the byte list when every character
is ASCII, none when a UnicodeEncodeError would be raised. -/
def encodeAscii (s : String) : Option (List Nat) :=
  if s.data.all (fun c => c.toNat < 128) then some (s.data.map Char.toNat)
  else none

/-- JSON values, with numbers modelled as integers. -/
inductive Json where
  | null
  | bool (b : Bool)
  | num (n : Int)
  | str (s : String)
  | arr (xs : List Json)
  | obj (fields : List (String × Json))

/-- Python dict lookup for an object built from a key/value list: the last
binding of a key wins, as when json.loads builds a dict. -/
def dictGet (k : String) (fields : List (String × Json)) : Option Json :=
  fields.foldl (fun acc kv => if kv.1 = k then some kv.2 else acc) none

/-- Lowercase hexadecimal digit character for a value below 16. -/
def hexDigit (d : Nat) : Char :=
  Char.ofNat (if d < 10 then 48 + d else 87 + d)

/-- Numeric value of a hexadecimal digit character (either case). -/
def fromHexDigit (c : Char) : Option Nat :=
  if 48 ≤ c.toNat ∧ c.toNat ≤ 57 then some (c.toNat - 48)
  else if 97 ≤ c.toNat ∧ c.toNat ≤ 102 then some (c.toNat - 87)
  else if 65 ≤ c.toNat ∧ c.toNat ≤ 70 then some (c.toNat - 55)
  else none

/-- Four-character lowercase hexadecimal rendering of a value below 2^16,
as json.dumps emits after a backslash-u. -/
def hexChars4 (n : Nat) : List Char :=
  [hexDigit (n / 4096 % 16), hexDigit (n / 256 % 16),
   hexDigit (n / 16 % 16), hexDigit (n % 16)]

/-- Value of four hexadecimal digit characters, most significant first. -/
def hex4 (a b c d : Char) : Option Nat :=
  match fromHexDigit a, fromHexDigit b, fromHexDigit c, fromHexDigit d with
  | some x, some y, some z, some w => some (((x * 16 + y) * 16 + z) * 16 + w)
  | _, _, _, _ => none

/-- JSON escaping of one character, as json.dumps with the default
ensure_ascii=True renders characters inside a string literal. -/
def escapeChar (c : Char) : List Char :=
  if c = '"' then ['\\', '"']
  else if c = '\\' then ['\\', '\\']
  else if c.toNat = 8 then ['\\', 'b']
  else if c.toNat = 12 then ['\\', 'f']
  else if c.toNat = 10 then ['\\', 'n']
  else if c.toNat = 13 then ['\\', 'r']
  else if c.toNat = 9 then ['\\', 't']
  else if 32 ≤ c.toNat ∧ c.toNat ≤ 126 then [c]
  else if c.toNat < 65536 then '\\' :: 'u' :: hexChars4 c.toNat
  else
    '\\' :: 'u' :: hexChars4 (55296 + (c.toNat - 65536) / 1024) ++
      ('\\' :: 'u' :: hexChars4 (56320 + (c.toNat - 65536) % 1024))

/-- JSON escaping of a character list. -/
def escapeList (l : List Char) : List Char := (l.map escapeChar).flatten

/-- Contents of a json.dumps string literal for s, without the quotes. -/
def escapeStr (s : String) : String := ⟨escapeList s.data⟩

/-- Helper: prepend a decoded character to a string-body parse result. -/
def consParsed (ch : Char) : Option (List Char × List Char) → Option (List Char × List Char) :=
  Option.map (fun p => (ch :: p.1, p.2))

/-- Decode one escape sequence after a backslash inside a JSON string
literal, returning the decoded character and the remaining input.
Surrogate pairs are combined; lone surrogates (which CPython tolerates)
are rejected by the model. -/
def parseEsc : List Char → Option (Char × List Char)
  | [] => none
  | e :: rest2 =>
    if e = '"' then some ('"', rest2)
    else if e = '\\' then some ('\\', rest2)
    else if e = '/' then some ('/', rest2)
    else if e = 'b' then some (Char.ofNat 8, rest2)
    else if e = 'f' then some (Char.ofNat 12, rest2)
    else if e = 'n' then some (Char.ofNat 10, rest2)
    else if e = 'r' then some (Char.ofNat 13, rest2)
    else if e = 't' then some (Char.ofNat 9, rest2)
    else if e = 'u' then
      match rest2 with
      | a :: b :: c2 :: d :: rest3 =>
        match hex4 a b c2 d with
        | none => none
        | some n =>
          if n < 55296 ∨ 57343 < n then some (Char.ofNat n, rest3)
          else if n ≤ 56319 then
            match rest3 with
            | b1 :: u1 :: a2 :: b2 :: c3 :: d2 :: rest4 =>
              if b1 = '\\' ∧ u1 = 'u' then
                match hex4 a2 b2 c3 d2 with
                | some n2 =>
                  if 56320 ≤ n2 ∧ n2 ≤ 57343 then
                    some (Char.ofNat (65536 + (n - 55296) * 1024 + (n2 - 56320)), rest4)
                  else none
                | none => none
              else none
            | _ => none
          else none
      | _ => none
    else none

/-- Parse the body of a JSON string literal after the opening quote,
returning the decoded characters and the input remaining after the closing
quote.  Follows json.loads in strict mode: raw control characters are
rejected, escape sequences are decoded by parseEsc.  The fuel argument
only serves termination; any fuel above the input length is enough. -/
def parseStringBody : Nat → List Char → Option (List Char × List Char)
  | 0, _ => none
  | _ + 1, [] => none
  | fuel + 1, c :: rest =>
    if c = '"' then some ([], rest)
    else if c = '\\' then
      match parseEsc rest with
      | none => none
      | some (ch, rest2) => consParsed ch (parseStringBody fuel rest2)
    else if c.toNat < 32 then none
    else consParsed c (parseStringBody fuel rest)

/-- JSON whitespace characters. -/
def isWsChar (c : Char) : Bool :=
  c = ' ' ∨ c = Char.ofNat 9 ∨ c = Char.ofNat 10 ∨ c = Char.ofNat 13

/-- Skip leading JSON whitespace. -/
def skipWs : List Char → List Char
  | [] => []
  | c :: rest => if isWsChar c then skipWs rest else c :: rest

/-- ASCII decimal digit test. -/
def isDigitChar (c : Char) : Bool := 48 ≤ c.toNat ∧ c.toNat ≤ 57

/-- Parse a run of decimal digits with an accumulator. -/
def parseDigits (acc : Nat) : List Char → Nat × List Char
  | [] => (acc, [])
  | c :: rest =>
    if isDigitChar c then parseDigits (acc * 10 + (c.toNat - 48)) rest
    else (acc, c :: rest)

/-- Parse a JSON unsigned integer: at least one digit, not followed by a
fraction or exponent part (the model restricts numbers to integers). -/
def parseNatNum : List Char → Option (Nat × List Char)
  | [] => none
  | c :: rest =>
    if isDigitChar c then
      match parseDigits (c.toNat - 48) rest with
      | (n, rest2) =>
        match rest2 with
        | [] => some (n, [])
        | c2 :: _ =>
          if c2 = '.' ∨ c2 = 'e' ∨ c2 = 'E' then none else some (n, rest2)
    else none

/-- Expect the given literal characters at the head of the input. -/
def expectLit : List Char → List Char → Option (List Char)
  | [], rest => some rest
  | _, [] => none
  | l :: ls, c :: rest => if c = l then expectLit ls rest else none

mutual

/-- Fueled recursive-descent parse of one JSON value, following
json.loads on the shapes this protocol uses. -/
def parseValue : Nat → List Char → Option (Json × List Char)
  | 0, _ => none
  | fuel + 1, cs0 =>
    match skipWs cs0 with
    | [] => none
    | c :: rest =>
      if c = '"' then
        (parseStringBody (rest.length + 1) rest).map (fun p => (Json.str ⟨p.1⟩, p.2))
      else if c.toNat = 123 then
        match skipWs rest with
        | [] => none
        | c2 :: rest2 =>
          if c2.toNat = 125 then some (Json.obj [], rest2)
          else parseMembers fuel [] (c2 :: rest2)
      else if c = '[' then
        match skipWs rest with
        | [] => none
        | c2 :: rest2 =>
          if c2 = ']' then some (Json.arr [], rest2)
          else parseItems fuel [] (c2 :: rest2)
      else if c = 't' then
        (expectLit ['r', 'u', 'e'] rest).map (fun r => (Json.bool true, r))
      else if c = 'f' then
        (expectLit ['a', 'l', 's', 'e'] rest).map (fun r => (Json.bool false, r))
      else if c = 'n' then
        (expectLit ['u', 'l', 'l'] rest).map (fun r => (Json.null, r))
      else if c = '-' then
        (parseNatNum rest).map (fun p => (Json.num (-(p.1 : Int)), p.2))
      else if isDigitChar c then
        (parseNatNum (c :: rest)).map (fun p => (Json.num (p.1 : Int), p.2))
      else none

/-- Fueled parse of object members after the opening brace (input starts
at the first key), accumulating the key/value pairs in order. -/
def parseMembers : Nat → List (String × Json) → List Char → Option (Json × List Char)
  | 0, _, _ => none
  | fuel + 1, acc, cs0 =>
    match skipWs cs0 with
    | [] => none
    | c :: rest =>
      if c = '"' then
        match parseStringBody (rest.length + 1) rest with
        | none => none
        | some (key, rest2) =>
          match skipWs rest2 with
          | [] => none
          | c2 :: rest3 =>
            if c2 = ':' then
              match parseValue fuel rest3 with
              | none => none
              | some (v, rest4) =>
                match skipWs rest4 with
                | [] => none
                | c3 :: rest5 =>
                  if c3 = ',' then parseMembers fuel (acc ++ [(⟨key⟩, v)]) rest5
                  else if c3.toNat = 125 then some (Json.obj (acc ++ [(⟨key⟩, v)]), rest5)
                  else none
            else none
      else none

/-- Fueled parse of array items after the opening bracket (input starts at
the first item), accumulating the items in order. -/
def parseItems : Nat → List Json → List Char → Option (Json × List Char)
  | 0, _, _ => none
  | fuel + 1, acc, cs0 =>
    match parseValue fuel cs0 with
    | none => none
    | some (v, rest) =>
      match skipWs rest with
      | [] => none
      | c :: rest2 =>
        if c = ',' then parseItems fuel (acc ++ [v]) rest2
        else if c = ']' then some (Json.arr (acc ++ [v]), rest2)
        else none

end

/-- Model of json.loads: parse one JSON document, allowing only trailing
whitespace after it. -/
def loads (s : String) : Option Json :=
  match parseValue (s.data.length + 1) s.data with
  | none => none
  | some (j, rest) => if skipWs rest = [] then some j else none

/-- Relation-data snapshot seen by the requirer: none when no relation to
the pushgateway exists, some d when a relation exists whose application
databag holds d under the push-endpoint key (d = none when the key was
never written). -/
abbrev Snapshot := Option (Option String)

/-- Output of json.dumps applied to a url object, as the provider writes it
in _on_relation_changed and update_endpoint: the single pair separator of
json.dumps is a colon followed by a space. -/
def provider_payload (endpoint : String) : String :=
  "\x7b\"url\": \"" ++ escapeStr endpoint ++ "\"\x7d"

/-- Output of json.dumps applied to a hostname and port object, the second
wire shape described by the protocol (emitted by older provider variants
and consumed by the testing charm). -/
def host_port_payload (h : String) (p : Nat) : String :=
  "\x7b\"hostname\": \"" ++ escapeStr h ++ "\", \"port\": " ++ (⟨natToDec p⟩ : String) ++ "\x7d"

/-- Python str() of a decoded JSON value as f-string interpolation or
format_map would render it.  Rendering of arrays and objects (Python repr
of list and dict) is not modelled; no code path under verification
formats one. -/
def pyJsonStr : Json → String
  | .str s => s
  | .num n => ⟨intToDec n⟩
  | .bool true => "True"
  | .bool false => "False"
  | .null => "None"
  | .arr _ => "<collection>"
  | .obj _ => "<collection>"

/-- The requirer decode path _pushgateway_url as a function of the
snapshot.  Returns ok none where Python returns None (no relation, key
absent, json.JSONDecodeError caught, KeyError caught, or a JSON null url
value, since Python None is the decoding of null); returns the decoded
url value otherwise.  Indexing a non-dict decoded payload with a string
key raises TypeError, which no handler catches. -/
def pushgateway_url (snap : Snapshot) : Except PyExn (Option Json) :=
  match snap with
  | none => .ok none
  | some none => .ok none
  | some (some raw) =>
    match loads raw with
    | none => .ok none
    | some (Json.obj fields) =>
      match dictGet "url" fields with
      | none => .ok none
      | some Json.null => .ok none
      | some v => .ok (some v)
    | some _ => .error .typeError

/-- The requirer is_ready query: the decode path produced a value. -/
def is_ready (snap : Snapshot) : Except PyExn Bool :=
  match pushgateway_url snap with
  | .error e => .error e
  | .ok o => .ok o.isSome

/-- Python isinstance(name, str) or name.isascii() or truthiness failure:
the name is rejected when it is not a string, not ASCII, or empty. -/
def nameBad (name : PyValue) : Bool :=
  match name with
  | .str s => !(strIsAscii s) || s == ""
  | _ => true

/-- Python isinstance(value, (float, int)) failure: the value is rejected
when it is neither a float nor an int (bool is a subclass of int). -/
def valueBad (value : PyValue) : Bool :=
  match value with
  | .float _ => false
  | .int _ => false
  | .bool _ => false
  | _ => true

/-- One HTTP POST as issued by urllib.request.urlopen in send_metric. -/
structure HttpRequest where
  url : String
  body : List Nat
  verifySsl : Bool
  deriving DecidableEq, Repr

/-- Outcome of the single urlopen call, supplied as an oracle: a 2xx
response, an HTTP error response (urllib raises HTTPError), or a
transport-level failure (urllib raises URLError, not an HTTPError). -/
inductive HttpOutcome where
  | ok
  | httpErr (code : Nat)
  | transport
  deriving DecidableEq, Repr

def notReadyMsg : String := "The service is not ready."

def badNameMsg : String := "The name must be a non-empty ASCII string."

def badValueMsg : String := "The metric value must be an integer or float number."

/-- Result of the try/except around urlopen: only HTTPError is caught, and
only when ignore_error is set; URLError from a transport failure always
propagates. -/
def respResult (ignore_error : Bool) : HttpOutcome → Except PyExn Unit
  | .ok => .ok ()
  | .httpErr c => if ignore_error then .ok () else .error (.httpError c)
  | .transport => .error .urlError

/-- Default value of the job_name parameter of send_metric. -/
def default_job_name : String := "default"

/-- send_metric as a function of the snapshot, the inputs, and the
transport outcome.  Returns the Python result (ok or the escaped
exception) together with the list of HTTP requests issued. -/
def send_metric (snap : Snapshot) (name value : PyValue) (ignore_error : Bool)
    (verify_ssl : Bool) (job_name : String) (resp : HttpOutcome) :
    Except PyExn Unit × List HttpRequest :=
  match pushgateway_url snap with
  | .error e => (.error e, [])
  | .ok none => (.error (.valueError notReadyMsg), [])
  | .ok (some url) =>
    if nameBad name then (.error (.valueError badNameMsg), [])
    else if valueBad value then (.error (.valueError badValueMsg), [])
    else
      match encodeAscii (pyStr name ++ " " ++ pyStr value ++ "\n") with
      | none => (.error .unicodeEncodeError, [])
      | some payload =>
        (respResult ignore_error resp,
         [⟨pyJsonStr url ++ "metrics/job/" ++ job_name, payload, verify_ssl⟩])

/-- The testing charm _on_push_relation decode path: reads the raw payload;
when present, json.loads (uncaught JSONDecodeError on bad JSON), then
formats http with hostname and port via format_map, which raises KeyError
when a key is missing and TypeError when the decoded payload is not a
mapping.  Returns the stored pushgateway url. -/
def tcharm_push_relation_url (raw : Option String) : Except PyExn (Option String) :=
  match raw with
  | none => .ok none
  | some r =>
    match loads r with
    | none => .error .jsonDecodeError
    | some (Json.obj fields) =>
      match dictGet "hostname" fields, dictGet "port" fields with
      | some hv, some pv =>
        .ok (some ("http://" ++ pyJsonStr hv ++ ":" ++ pyJsonStr pv ++ "/"))
      | _, _ => .error .keyError
    | some _ => .error .typeError

theorem char_toNat_ofNat (n : Nat) (h : n < 55296) : (Char.ofNat n).toNat = n := by
  simp [Char.ofNat, Nat.isValidChar, h, Char.toNat, Char.ofNatAux, UInt32.toNat, UInt32.ofNatCore]

theorem char_valid_nat (c : Char) :
    c.toNat < 55296 ∨ (57343 < c.toNat ∧ c.toNat < 1114112) := c.valid

theorem decDigitsAux_eq (fuel : Nat) : ∀ n : Nat, n ≤ fuel → decDigitsAux fuel n = Nat.digits 10 n := by
  induction fuel with
  | zero =>
    intro n hn
    have : n = 0 := by omega
    subst this
    simp [decDigitsAux]
  | succ fuel ih =>
    intro n hn
    cases n with
    | zero => simp [decDigitsAux]
    | succ m =>
      rw [decDigitsAux, Nat.digits_def' (by omega : 1 < 10) (Nat.succ_pos m)]
      rw [ih ((m + 1) / 10) (by
        have := Nat.div_lt_self (Nat.succ_pos m) (by omega : 1 < 10)
        omega)]

theorem decDigits_eq_digits (n : Nat) : decDigits n = Nat.digits 10 n :=
  decDigitsAux_eq n n (Nat.le_refl n)

theorem natToDec_eq (n : Nat) : natToDec n =
    (if n = 0 then [Char.ofNat 48]
     else ((Nat.digits 10 n).reverse).map (fun d => Char.ofNat (48 + d))) := by
  unfold natToDec
  rw [decDigits_eq_digits]

theorem fromHexDigit_hexDigit : ∀ d < 16, fromHexDigit (hexDigit d) = some d := by decide

theorem hex4_hexChars4 (n : Nat) (h : n < 65536) :
    hex4 (hexDigit (n / 4096 % 16)) (hexDigit (n / 256 % 16))
      (hexDigit (n / 16 % 16)) (hexDigit (n % 16)) = some n := by
  rw [hex4, fromHexDigit_hexDigit _ (Nat.mod_lt _ (by omega)),
    fromHexDigit_hexDigit _ (Nat.mod_lt _ (by omega)),
    fromHexDigit_hexDigit _ (Nat.mod_lt _ (by omega)),
    fromHexDigit_hexDigit _ (Nat.mod_lt _ (by omega))]
  simp only [Option.some.injEq]
  omega


theorem parseStringBody_backslash (k : Nat) (rest : List Char) :
    parseStringBody (k + 1) ('\\' :: rest) =
      match parseEsc rest with
      | none => none
      | some (ch, rest2) => consParsed ch (parseStringBody k rest2) := by
  simp [parseStringBody]

theorem parseEsc_bmp (a b c2 d : Char) (rest : List Char) (n : Nat)
    (hn : hex4 a b c2 d = some n) (hcond : n < 55296 ∨ 57343 < n) :
    parseEsc ('u' :: a :: b :: c2 :: d :: rest) = some (Char.ofNat n, rest) := by
  simp [parseEsc, hn, hcond]

theorem parseEsc_surrogate (a b c2 d a2 b2 c3 d2 : Char) (rest : List Char)
    (n n2 : Nat) (hn : hex4 a b c2 d = some n) (hn2 : hex4 a2 b2 c3 d2 = some n2)
    (hc1 : ¬(n < 55296 ∨ 57343 < n)) (hc2 : n ≤ 56319) (hc3 : 56320 ≤ n2 ∧ n2 ≤ 57343) :
    parseEsc ('u' :: a :: b :: c2 :: d :: '\\' :: 'u' :: a2 :: b2 :: c3 :: d2 :: rest) =
      some (Char.ofNat (65536 + (n - 55296) * 1024 + (n2 - 56320)), rest) := by
  simp [parseEsc, hn, hn2, hc1, hc2, hc3]

theorem parseStringBody_escapeChar (k : Nat) (c : Char) (rest : List Char) :
    parseStringBody (k + 1) (escapeChar c ++ rest) = consParsed c (parseStringBody k rest) := by
  by_cases h1 : c = '"'
  · subst h1; simp [escapeChar, parseStringBody, parseEsc]
  by_cases h2 : c = '\\'
  · subst h2; simp [escapeChar, parseStringBody, parseEsc]
  by_cases h3 : c.toNat = 8
  · have hc : c = Char.ofNat 8 := by rw [← Char.ofNat_toNat c, h3]
    subst hc; simp [escapeChar, parseStringBody, parseEsc]
  by_cases h4 : c.toNat = 12
  · have hc : c = Char.ofNat 12 := by rw [← Char.ofNat_toNat c, h4]
    subst hc; simp [escapeChar, parseStringBody, parseEsc]
  by_cases h5 : c.toNat = 10
  · have hc : c = Char.ofNat 10 := by rw [← Char.ofNat_toNat c, h5]
    subst hc; simp [escapeChar, parseStringBody, parseEsc]
  by_cases h6 : c.toNat = 13
  · have hc : c = Char.ofNat 13 := by rw [← Char.ofNat_toNat c, h6]
    subst hc; simp [escapeChar, parseStringBody, parseEsc]
  by_cases h7 : c.toNat = 9
  · have hc : c = Char.ofNat 9 := by rw [← Char.ofNat_toNat c, h7]
    subst hc; simp [escapeChar, parseStringBody, parseEsc]
  by_cases h8 : 32 ≤ c.toNat ∧ c.toNat ≤ 126
  · have hlt : ¬(c.toNat < 32) := by omega
    simp only [escapeChar, h1, h2, h3, h4, h5, h6, h7, h8, if_true, if_false, ite_true,
      ite_false, List.cons_append, List.nil_append]
    simp [parseStringBody, h1, h2, hlt]
  by_cases h9 : c.toNat < 65536
  · have hcond : c.toNat < 55296 ∨ 57343 < c.toNat := by
      rcases char_valid_nat c with h | h
      · exact Or.inl h
      · exact Or.inr h.1
    simp only [escapeChar, h1, h2, h3, h4, h5, h6, h7, h8, h9, if_true, if_false, ite_true,
      ite_false, hexChars4, List.cons_append, List.nil_append]
    rw [parseStringBody_backslash, parseEsc_bmp _ _ _ _ _ _ (hex4_hexChars4 _ h9) hcond]
    simp only [Char.ofNat_toNat]
  · have hup : c.toNat < 1114112 := by
      rcases char_valid_nat c with h | h
      · omega
      · exact h.2
    have hmod : (c.toNat - 65536) % 1024 < 1024 :=
      Nat.mod_lt _ (by omega)
    have hquot : (c.toNat - 65536) / 1024 < 1024 := by omega
    have hhiv : 55296 + (c.toNat - 65536) / 1024 < 65536 := by omega
    have hlov : 56320 + (c.toNat - 65536) % 1024 < 65536 := by omega
    have hhicond : ¬(55296 + (c.toNat - 65536) / 1024 < 55296 ∨
        57343 < 55296 + (c.toNat - 65536) / 1024) := by omega
    have hhile : 55296 + (c.toNat - 65536) / 1024 ≤ 56319 := by omega
    have hlocond : 56320 ≤ 56320 + (c.toNat - 65536) % 1024 ∧
        56320 + (c.toNat - 65536) % 1024 ≤ 57343 := by omega
    have hcomb : 65536 + (55296 + (c.toNat - 65536) / 1024 - 55296) * 1024 +
        (56320 + (c.toNat - 65536) % 1024 - 56320) = c.toNat := by omega
    simp only [escapeChar, h1, h2, h3, h4, h5, h6, h7, h8, h9, if_true, if_false, ite_true,
      ite_false, hexChars4, List.cons_append, List.append_assoc, List.nil_append]
    rw [parseStringBody_backslash,
      parseEsc_surrogate _ _ _ _ _ _ _ _ _ _ _ (hex4_hexChars4 _ hhiv) (hex4_hexChars4 _ hlov)
        hhicond hhile hlocond]
    simp only [hcomb, Char.ofNat_toNat]

theorem parseStringBody_escapeList (l : List Char) : ∀ (k : Nat) (rest : List Char),
    parseStringBody (l.length + (k + 1)) (escapeList l ++ '"' :: rest) = some (l, rest) := by
  induction l with
  | nil =>
    intro k rest
    simp [escapeList, parseStringBody]
  | cons c tl ih =>
    intro k rest
    have hsplit : escapeList (c :: tl) = escapeChar c ++ escapeList tl := by
      simp [escapeList]
    have hlen : (c :: tl).length + (k + 1) = (tl.length + (k + 1)) + 1 := by
      simp only [List.length_cons]; omega
    rw [hsplit, List.append_assoc, hlen, parseStringBody_escapeChar, ih]
    simp [consParsed]

theorem one_le_escapeChar_length (c : Char) : 1 ≤ (escapeChar c).length := by
  unfold escapeChar
  repeat' split
  all_goals simp

theorem le_escapeList_length (l : List Char) : l.length ≤ (escapeList l).length := by
  induction l with
  | nil => simp [escapeList]
  | cons c tl ih =>
    have hsplit : escapeList (c :: tl) = escapeChar c ++ escapeList tl := by
      simp [escapeList]
    rw [hsplit]
    simp only [List.length_append, List.length_cons]
    have := one_le_escapeChar_length c
    omega

theorem parseStringBody_escape_fuel (l : List Char) (fuel : Nat) (h : l.length + 1 ≤ fuel)
    (rest : List Char) :
    parseStringBody fuel (escapeList l ++ '"' :: rest) = some (l, rest) := by
  obtain ⟨k, rfl⟩ : ∃ k, fuel = l.length + (k + 1) := ⟨fuel - l.length - 1, by omega⟩
  exact parseStringBody_escapeList l k rest

theorem digitChar_toNat (d : Nat) (h : d < 10) : (Char.ofNat (48 + d)).toNat = 48 + d :=
  char_toNat_ofNat _ (by omega)

theorem isDigitChar_digitChar (d : Nat) (h : d < 10) :
    isDigitChar (Char.ofNat (48 + d)) = true := by
  simp [isDigitChar, digitChar_toNat d h]
  omega

theorem parseDigits_append (ds : List Nat) : ∀ (acc : Nat) (rest : List Char),
    (∀ d ∈ ds, d < 10) →
    (∀ c cs, rest = c :: cs → isDigitChar c = false) →
    parseDigits acc (ds.map (fun d => Char.ofNat (48 + d)) ++ rest) =
      (ds.foldl (fun a d => a * 10 + d) acc, rest) := by
  induction ds with
  | nil =>
    intro acc rest hds hrest
    simp only [List.map_nil, List.nil_append, List.foldl_nil]
    cases rest with
    | nil => simp [parseDigits]
    | cons c cs => simp [parseDigits, hrest c cs rfl]
  | cons d tl ih =>
    intro acc rest hds hrest
    have hd : d < 10 := hds d (by simp)
    simp only [List.map_cons, List.cons_append, List.foldl_cons]
    rw [parseDigits]
    simp only [isDigitChar_digitChar d hd, if_true, ite_true, digitChar_toNat d hd]
    have harith : 48 + d - 48 = d := by omega
    rw [harith]
    exact ih _ rest (fun x hx => hds x (by simp [hx])) hrest

theorem foldl_rev_ofDigits (ds : List Nat) : ∀ acc : Nat,
    ds.reverse.foldl (fun a d => a * 10 + d) acc = acc * 10 ^ ds.length + Nat.ofDigits 10 ds := by
  induction ds with
  | nil => intro acc; simp [Nat.ofDigits]
  | cons d tl ih =>
    intro acc
    simp only [List.reverse_cons, List.foldl_append, List.foldl_cons, List.foldl_nil, ih,
      Nat.ofDigits_cons, List.length_cons]
    ring

theorem parseNatNum_natToDec (n : Nat) (rest : List Char)
    (hrest : ∀ c cs, rest = c :: cs →
      isDigitChar c = false ∧ ¬c = '.' ∧ ¬c = 'e' ∧ ¬c = 'E') :
    parseNatNum (natToDec n ++ rest) = some (n, rest) := by
  by_cases h0 : n = 0
  · subst h0
    have : natToDec 0 = [Char.ofNat 48] := by simp [natToDec]
    rw [this]
    simp only [List.cons_append, List.nil_append]
    rw [parseNatNum]
    simp only [isDigitChar_digitChar 0 (by omega), if_true, ite_true]
    have h48 : (Char.ofNat 48).toNat - 48 = 0 := by
      rw [char_toNat_ofNat 48 (by omega)]
    rw [h48]
    have := parseDigits_append [] 0 rest (by simp) (fun c cs h => (hrest c cs h).1)
    simp only [List.map_nil, List.nil_append, List.foldl_nil] at this
    rw [this]
    cases rest with
    | nil => rfl
    | cons c2 cs =>
      obtain ⟨_, hdot, he, hE⟩ := hrest c2 cs rfl
      simp [hdot, he, hE]
  · have hne : Nat.digits 10 n ≠ [] := Nat.digits_ne_nil_iff_ne_zero.mpr h0
    have hrevne : (Nat.digits 10 n).reverse ≠ [] := by
      simpa using hne
    obtain ⟨d, tl, hds⟩ := List.exists_cons_of_ne_nil hrevne
    have hmem : ∀ x ∈ (Nat.digits 10 n).reverse, x < 10 := by
      intro x hx
      exact Nat.digits_lt_base (by omega) (List.mem_reverse.mp hx)
    have hd10 : d < 10 := hmem d (by rw [hds]; simp)
    have hnat : natToDec n = Char.ofNat (48 + d) :: tl.map (fun d => Char.ofNat (48 + d)) := by
      simp only [natToDec_eq, if_neg h0, hds, List.map_cons]
    rw [hnat]
    simp only [List.cons_append]
    rw [parseNatNum]
    simp only [isDigitChar_digitChar d hd10, if_true, ite_true, digitChar_toNat d hd10]
    have harith : 48 + d - 48 = d := by omega
    rw [harith]
    have htl : ∀ x ∈ tl, x < 10 := by
      intro x hx
      exact hmem x (by rw [hds]; simp [hx])
    rw [parseDigits_append tl d rest htl (fun c cs h => (hrest c cs h).1)]
    have hval : tl.foldl (fun a d => a * 10 + d) d = n := by
      have h1 : ((Nat.digits 10 n).reverse).foldl (fun a d => a * 10 + d) 0 = n := by
        rw [foldl_rev_ofDigits]
        simp [Nat.ofDigits_digits]
      rw [hds] at h1
      simpa using h1
    rw [hval]
    cases rest with
    | nil => rfl
    | cons c2 cs =>
      obtain ⟨_, hdot, he, hE⟩ := hrest c2 cs rfl
      simp [hdot, he, hE]

theorem skipWs_not_ws (c : Char) (rest : List Char) (h : isWsChar c = false) :
    skipWs (c :: rest) = c :: rest := by
  simp [skipWs, h]

theorem skipWs_ws (c : Char) (rest : List Char) (h : isWsChar c = true) :
    skipWs (c :: rest) = skipWs rest := by
  simp [skipWs, h]

theorem parseValue_provider (e : String) (k : Nat) :
    parseValue (k + 3) ('\x7b' :: '"' :: 'u' :: 'r' :: 'l' :: '"' :: ':' :: ' ' :: '"' ::
        (escapeList e.data ++ ['"', '\x7d'])) =
      some (Json.obj [("url", Json.str e)], []) := by
  rw [parseValue, skipWs_not_ws _ _ (by decide)]
  simp only [if_neg (by decide : ¬('\x7b' : Char) = '"'),
    if_pos (by decide : ('\x7b' : Char).toNat = 123),
    skipWs_not_ws _ _ (by decide : isWsChar '"' = false),
    if_neg (by decide : ¬('"' : Char).toNat = 125)]
  rw [parseMembers, skipWs_not_ws _ _ (by decide)]
  dsimp only
  rw [if_pos rfl]
  have hkey : ('u' :: 'r' :: 'l' :: '"' :: (':' :: ' ' :: '"' ::
      (escapeList e.data ++ ['"', '\x7d']))) =
      escapeList ['u', 'r', 'l'] ++ '"' :: (':' :: ' ' :: '"' ::
      (escapeList e.data ++ ['"', '\x7d'])) := rfl
  rw [hkey, parseStringBody_escape_fuel _ _ (by
    simp only [List.length_append, List.length_cons]
    omega)]
  dsimp only
  rw [skipWs_not_ws _ _ (by decide)]
  dsimp only
  rw [if_pos rfl]
  rw [parseValue, skipWs_ws _ _ (by decide), skipWs_not_ws _ _ (by decide)]
  dsimp only
  rw [if_pos rfl]
  have hval : (escapeList e.data ++ ['"', '\x7d']) =
      escapeList e.data ++ '"' :: ['\x7d'] := rfl
  rw [hval, parseStringBody_escape_fuel _ _ (by
    have := le_escapeList_length e.data
    simp only [List.length_append, List.length_cons, List.length_nil]
    omega)]
  show (match skipWs ['\x7d'] with
      | [] => none
      | c3 :: rest5 =>
        if c3 = ',' then parseMembers (k + 1) ([] ++ [("url", Json.str e)]) rest5
        else if c3.toNat = 125 then some (Json.obj ([] ++ [("url", Json.str e)]), rest5)
        else none) =
    some (Json.obj [("url", Json.str e)], [])
  rw [skipWs_not_ws _ _ (by decide)]
  dsimp only
  rw [if_neg (by decide : ¬('\x7d' : Char) = ','),
    if_pos (by decide : ('\x7d' : Char).toNat = 125)]
  simp

theorem provider_payload_data (e : String) :
    (provider_payload e).data =
      '\x7b' :: '"' :: 'u' :: 'r' :: 'l' :: '"' :: ':' :: ' ' :: '"' ::
        (escapeList e.data ++ ['"', '\x7d']) := by
  show (("\x7b\"url\": \"" ++ escapeStr e) ++ "\"\x7d").data = _
  rw [String.data_append, String.data_append, List.append_assoc]
  rfl

theorem loads_provider_payload (e : String) :
    loads (provider_payload e) = some (Json.obj [("url", Json.str e)]) := by
  unfold loads
  rw [provider_payload_data]
  have hlen : ('\x7b' :: '"' :: 'u' :: 'r' :: 'l' :: '"' :: ':' :: ' ' :: '"' ::
      (escapeList e.data ++ ['"', '\x7d'])).length + 1 = ((escapeList e.data).length + 9) + 3 := by
    simp only [List.length_cons, List.length_append, List.length_nil]
  rw [hlen, parseValue_provider]
  rfl

theorem char_ne_of_toNat_ne (c d : Char) (h : c.toNat ≠ d.toNat) : ¬c = d :=
  fun he => h (congrArg Char.toNat he)

theorem natToDec_head (p : Nat) :
    ∃ c restD, natToDec p = c :: restD ∧ 48 ≤ c.toNat ∧ c.toNat ≤ 57 := by
  by_cases h0 : p = 0
  · subst h0
    refine ⟨Char.ofNat 48, [], by simp [natToDec], ?_, ?_⟩
    · rw [char_toNat_ofNat 48 (by omega)]
    · rw [char_toNat_ofNat 48 (by omega)]
      omega
  · have hne : Nat.digits 10 p ≠ [] := Nat.digits_ne_nil_iff_ne_zero.mpr h0
    have hrevne : (Nat.digits 10 p).reverse ≠ [] := by simpa using hne
    obtain ⟨d, tl, hds⟩ := List.exists_cons_of_ne_nil hrevne
    have hd10 : d < 10 := by
      have := Nat.digits_lt_base (by omega)
        (List.mem_reverse.mp (show d ∈ (Nat.digits 10 p).reverse by rw [hds]; simp))
      exact this
    refine ⟨Char.ofNat (48 + d), tl.map (fun x => Char.ofNat (48 + x)), ?_, ?_, ?_⟩
    · simp only [natToDec_eq, if_neg h0, hds, List.map_cons]
    · rw [digitChar_toNat d hd10]; omega
    · rw [digitChar_toNat d hd10]; omega

theorem isWsChar_false_of_digit (c : Char) (h48 : 48 ≤ c.toNat) (h57 : c.toNat ≤ 57) :
    isWsChar c = false := by
  have hsp : (' ' : Char).toNat = 32 := rfl
  have h9 : (Char.ofNat 9).toNat = 9 := rfl
  have h10 : (Char.ofNat 10).toNat = 10 := rfl
  have h13 : (Char.ofNat 13).toNat = 13 := rfl
  simp only [isWsChar]
  simp [char_ne_of_toNat_ne c ' ' (by omega), char_ne_of_toNat_ne c (Char.ofNat 9) (by omega),
    char_ne_of_toNat_ne c (Char.ofNat 10) (by omega),
    char_ne_of_toNat_ne c (Char.ofNat 13) (by omega)]

theorem parseValue_host_port (h : String) (p : Nat) (k : Nat) :
    parseValue (k + 4)
      ('\x7b' :: '"' :: 'h' :: 'o' :: 's' :: 't' :: 'n' :: 'a' :: 'm' :: 'e' :: '"' ::
        ':' :: ' ' :: '"' ::
        (escapeList h.data ++ ('"' :: ',' :: ' ' :: '"' :: 'p' :: 'o' :: 'r' :: 't' :: '"' ::
          ':' :: ' ' :: (natToDec p ++ ['\x7d'])))) =
      some (Json.obj [("hostname", Json.str h), ("port", Json.num (p : Int))], []) := by
  obtain ⟨c0, restD, hdec, h48, h57⟩ := natToDec_head p
  rw [parseValue, skipWs_not_ws _ _ (by decide)]
  simp only [if_neg (by decide : ¬('\x7b' : Char) = '"'),
    if_pos (by decide : ('\x7b' : Char).toNat = 123),
    skipWs_not_ws _ _ (by decide : isWsChar '"' = false),
    if_neg (by decide : ¬('"' : Char).toNat = 125)]
  rw [parseMembers, skipWs_not_ws _ _ (by decide)]
  dsimp only
  rw [if_pos rfl]
  have hkey1 : ('h' :: 'o' :: 's' :: 't' :: 'n' :: 'a' :: 'm' :: 'e' :: '"' :: ':' :: ' ' :: '"' ::
      (escapeList h.data ++ ('"' :: ',' :: ' ' :: '"' :: 'p' :: 'o' :: 'r' :: 't' :: '"' ::
        ':' :: ' ' :: (natToDec p ++ ['\x7d'])))) =
      escapeList ['h', 'o', 's', 't', 'n', 'a', 'm', 'e'] ++ '"' :: (':' :: ' ' :: '"' ::
      (escapeList h.data ++ ('"' :: ',' :: ' ' :: '"' :: 'p' :: 'o' :: 'r' :: 't' :: '"' ::
        ':' :: ' ' :: (natToDec p ++ ['\x7d'])))) := rfl
  rw [hkey1, parseStringBody_escape_fuel _ _ (by
    simp only [List.length_append, List.length_cons]
    omega)]
  dsimp only
  rw [skipWs_not_ws _ _ (by decide)]
  dsimp only
  rw [if_pos rfl]
  rw [parseValue, skipWs_ws _ _ (by decide), skipWs_not_ws _ _ (by decide)]
  dsimp only
  rw [if_pos rfl]
  have hval1 : (escapeList h.data ++ ('"' :: ',' :: ' ' :: '"' :: 'p' :: 'o' :: 'r' :: 't' :: '"' ::
      ':' :: ' ' :: (natToDec p ++ ['\x7d']))) =
      escapeList h.data ++ '"' :: (',' :: ' ' :: '"' :: 'p' :: 'o' :: 'r' :: 't' :: '"' ::
      ':' :: ' ' :: (natToDec p ++ ['\x7d'])) := rfl
  rw [hval1, parseStringBody_escape_fuel _ _ (by
    have := le_escapeList_length h.data
    simp only [List.length_append, List.length_cons]
    omega)]
  dsimp only [Option.map]
  rw [skipWs_not_ws _ _ (by decide)]
  dsimp only
  rw [if_pos rfl]
  rw [parseMembers, skipWs_ws _ _ (by decide), skipWs_not_ws _ _ (by decide)]
  dsimp only
  rw [if_pos rfl]
  have hkey2 : ('p' :: 'o' :: 'r' :: 't' :: '"' :: ':' :: ' ' :: (natToDec p ++ ['\x7d'])) =
      escapeList ['p', 'o', 'r', 't'] ++ '"' :: (':' :: ' ' :: (natToDec p ++ ['\x7d'])) := rfl
  rw [hkey2, parseStringBody_escape_fuel _ _ (by
    simp only [List.length_append, List.length_cons]
    omega)]
  dsimp only
  rw [skipWs_not_ws _ _ (by decide)]
  dsimp only
  rw [if_pos rfl]
  rw [parseValue, skipWs_ws _ _ (by decide)]
  rw [show (natToDec p ++ ['\x7d']) = c0 :: (restD ++ ['\x7d']) from by
    rw [hdec]; simp]
  rw [skipWs_not_ws _ _ (isWsChar_false_of_digit c0 h48 h57)]
  have hq34 : ('"' : Char).toNat = 34 := rfl
  have hq91 : ('[' : Char).toNat = 91 := rfl
  have hq116 : ('t' : Char).toNat = 116 := rfl
  have hq102 : ('f' : Char).toNat = 102 := rfl
  have hq110 : ('n' : Char).toNat = 110 := rfl
  have hq45 : ('-' : Char).toNat = 45 := rfl
  have hdig : isDigitChar c0 = true := by
    simp [isDigitChar]
    omega
  simp only [if_neg (char_ne_of_toNat_ne c0 '"' (by omega)),
    if_neg (show ¬c0.toNat = 123 by omega),
    if_neg (char_ne_of_toNat_ne c0 '[' (by omega)),
    if_neg (char_ne_of_toNat_ne c0 't' (by omega)),
    if_neg (char_ne_of_toNat_ne c0 'f' (by omega)),
    if_neg (char_ne_of_toNat_ne c0 'n' (by omega)),
    if_neg (char_ne_of_toNat_ne c0 '-' (by omega)),
    hdig, if_pos (rfl : (true : Bool) = true)]
  rw [show c0 :: (restD ++ ['\x7d']) = natToDec p ++ ['\x7d'] from by rw [hdec]; simp]
  rw [parseNatNum_natToDec p ['\x7d'] (by
    intro c cs hc
    injection hc with hc1 hc2
    subst hc1
    refine ⟨by decide, by decide, by decide, by decide⟩)]
  dsimp only [Option.map]
  simp only [if_true]
  rw [skipWs_not_ws _ _ (by decide)]
  dsimp only
  rw [if_neg (by decide : ¬('\x7d' : Char) = ','),
    if_pos (by decide : ('\x7d' : Char).toNat = 125)]
  simp

theorem host_port_payload_data (h : String) (p : Nat) :
    (host_port_payload h p).data =
      '\x7b' :: '"' :: 'h' :: 'o' :: 's' :: 't' :: 'n' :: 'a' :: 'm' :: 'e' :: '"' ::
        ':' :: ' ' :: '"' ::
        (escapeList h.data ++ ('"' :: ',' :: ' ' :: '"' :: 'p' :: 'o' :: 'r' :: 't' :: '"' ::
          ':' :: ' ' :: (natToDec p ++ ['\x7d']))) := by
  show (((("\x7b\"hostname\": \"" ++ escapeStr h) ++ "\", \"port\": ") ++
      (⟨natToDec p⟩ : String)) ++ "\x7d").data = _
  rw [String.data_append, String.data_append, String.data_append, String.data_append]
  simp only [List.append_assoc]
  rfl

theorem loads_host_port_payload (h : String) (p : Nat) :
    loads (host_port_payload h p) =
      some (Json.obj [("hostname", Json.str h), ("port", Json.num (p : Int))]) := by
  unfold loads
  rw [host_port_payload_data]
  have hlen : ('\x7b' :: '"' :: 'h' :: 'o' :: 's' :: 't' :: 'n' :: 'a' :: 'm' :: 'e' :: '"' ::
      ':' :: ' ' :: '"' ::
      (escapeList h.data ++ ('"' :: ',' :: ' ' :: '"' :: 'p' :: 'o' :: 'r' :: 't' :: '"' ::
        ':' :: ' ' :: (natToDec p ++ ['\x7d'])))).length + 1 =
      ((escapeList h.data).length + (natToDec p).length + 23) + 4 := by
    simp only [List.length_cons, List.length_append, List.length_nil]
    omega
  rw [hlen, parseValue_host_port]
  rfl

theorem intToDec_ofNat (p : Nat) : intToDec (p : Int) = natToDec p := by
  unfold intToDec
  rw [if_neg (by omega : ¬((p : Int) < 0))]
  rw [Int.natAbs_ofNat]

theorem pushgateway_url_provider (e : String) :
    pushgateway_url (some (some (provider_payload e))) = .ok (some (Json.str e)) := by
  unfold pushgateway_url
  dsimp only
  rw [loads_provider_payload]
  rfl

theorem pushgateway_url_host_port (h : String) (p : Nat) :
    pushgateway_url (some (some (host_port_payload h p))) = .ok none := by
  unfold pushgateway_url
  dsimp only
  rw [loads_host_port_payload]
  rfl

theorem tcharm_url_shape_keyerror (e : String) :
    tcharm_push_relation_url (some (provider_payload e)) = .error .keyError := by
  unfold tcharm_push_relation_url
  dsimp only
  rw [loads_provider_payload]
  rfl

theorem tcharm_host_port_url (h : String) (p : Nat) :
    tcharm_push_relation_url (some (host_port_payload h p)) =
      .ok (some ("http://" ++ h ++ ":" ++ (⟨natToDec p⟩ : String) ++ "/")) := by
  unfold tcharm_push_relation_url
  dsimp only
  rw [loads_host_port_payload]
  show Except.ok (some ("http://" ++ pyJsonStr (Json.str h) ++ ":" ++
      pyJsonStr (Json.num (p : Int)) ++ "/")) = _
  rw [show pyJsonStr (Json.str h) = h from rfl,
    show pyJsonStr (Json.num (p : Int)) = (⟨intToDec (p : Int)⟩ : String) from rfl,
    intToDec_ofNat]

theorem pushgateway_url_no_relation : pushgateway_url none = .ok none := rfl

theorem pushgateway_url_no_key : pushgateway_url (some none) = .ok none := rfl

theorem pushgateway_url_bad_json (raw : String) (h : loads raw = none) :
    pushgateway_url (some (some raw)) = .ok none := by
  unfold pushgateway_url
  dsimp only
  rw [h]

theorem pushgateway_url_missing_key (raw : String) (fields : List (String × Json))
    (h : loads raw = some (Json.obj fields)) (hk : dictGet "url" fields = none) :
    pushgateway_url (some (some raw)) = .ok none := by
  unfold pushgateway_url
  dsimp only
  rw [h]
  dsimp only
  rw [hk]

theorem natToDec_ascii (n : Nat) : ∀ c ∈ natToDec n, c.toNat < 128 := by
  intro c hc
  rw [natToDec_eq] at hc
  by_cases h0 : n = 0
  · subst h0
    simp at hc
    rw [hc, char_toNat_ofNat 48 (by omega)]
    omega
  · rw [if_neg h0] at hc
    obtain ⟨d, hd, hcd⟩ := List.mem_map.mp hc
    have hd10 : d < 10 := Nat.digits_lt_base (by omega) (List.mem_reverse.mp hd)
    rw [← hcd, digitChar_toNat d hd10]
    omega

theorem intToDec_ascii (i : Int) : ∀ c ∈ intToDec i, c.toNat < 128 := by
  intro c hc
  unfold intToDec at hc
  by_cases hneg : i < 0
  · rw [if_pos hneg] at hc
    rcases List.mem_cons.mp hc with hc | hc
    · rw [hc, char_toNat_ofNat 45 (by omega)]
      omega
    · exact natToDec_ascii _ c hc
  · rw [if_neg hneg] at hc
    exact natToDec_ascii _ c hc

theorem pfloatStr_ascii (f : PFloat) : ∀ c ∈ pfloatStr f, c.toNat < 128 := by
  intro c hc
  cases f with
  | finite m e =>
    simp only [pfloatStr, List.mem_append] at hc
    rcases hc with (hc | hc) | hc
    · exact intToDec_ascii m c hc
    · simp only [List.mem_singleton] at hc
      rw [hc]
      decide
    · exact intToDec_ascii e c hc
  | inf =>
    simp only [pfloatStr] at hc
    fin_cases hc <;> decide
  | ninf =>
    simp only [pfloatStr] at hc
    fin_cases hc <;> decide
  | nan =>
    simp only [pfloatStr] at hc
    fin_cases hc <;> decide

theorem pyStr_numeric_ascii (v : PyValue) (hv : valueBad v = false) :
    ∀ c ∈ (pyStr v).data, c.toNat < 128 := by
  intro c hc
  cases v with
  | float f => exact pfloatStr_ascii f c hc
  | int i => exact intToDec_ascii i c hc
  | bool b =>
    cases b with
    | true =>
      simp only [pyStr] at hc
      fin_cases hc <;> decide
    | false =>
      simp only [pyStr] at hc
      fin_cases hc <;> decide
  | str s => simp [valueBad] at hv
  | complex re im => simp [valueBad] at hv
  | noneV => simp [valueBad] at hv

theorem payload_encode (s : String) (v : PyValue) (hs : strIsAscii s = true)
    (hv : valueBad v = false) :
    encodeAscii (s ++ " " ++ pyStr v ++ "\n") =
      some ((s ++ " " ++ pyStr v ++ "\n").data.map Char.toNat) := by
  unfold encodeAscii
  rw [if_pos ?_]
  simp only [String.data_append, List.all_append, Bool.and_eq_true]
  refine ⟨⟨⟨?_, by decide⟩, ?_⟩, by decide⟩
  · exact hs
  · rw [List.all_eq_true]
    intro c hc
    simp only [decide_eq_true_eq]
    exact pyStr_numeric_ascii v hv c hc

theorem send_metric_decode_raises (snap : Snapshot) (name value : PyValue)
    (ig vs : Bool) (job : String) (resp : HttpOutcome) (ex : PyExn)
    (h : pushgateway_url snap = .error ex) :
    send_metric snap name value ig vs job resp = (.error ex, []) := by
  unfold send_metric
  rw [h]

theorem send_metric_not_ready (snap : Snapshot) (name value : PyValue)
    (ig vs : Bool) (job : String) (resp : HttpOutcome)
    (h : pushgateway_url snap = .ok none) :
    send_metric snap name value ig vs job resp = (.error (.valueError notReadyMsg), []) := by
  unfold send_metric
  rw [h]

theorem send_metric_bad_name (snap : Snapshot) (url : Json) (name value : PyValue)
    (ig vs : Bool) (job : String) (resp : HttpOutcome)
    (h : pushgateway_url snap = .ok (some url)) (hn : nameBad name = true) :
    send_metric snap name value ig vs job resp = (.error (.valueError badNameMsg), []) := by
  unfold send_metric
  rw [h]
  dsimp only
  rw [if_pos hn]

theorem send_metric_bad_value (snap : Snapshot) (url : Json) (name value : PyValue)
    (ig vs : Bool) (job : String) (resp : HttpOutcome)
    (h : pushgateway_url snap = .ok (some url)) (hn : nameBad name = false)
    (hv : valueBad value = true) :
    send_metric snap name value ig vs job resp = (.error (.valueError badValueMsg), []) := by
  unfold send_metric
  rw [h]
  dsimp only
  rw [if_neg (by simp [hn]), if_pos hv]

theorem send_metric_sends (snap : Snapshot) (url : Json) (s : String) (value : PyValue)
    (ig vs : Bool) (job : String) (resp : HttpOutcome)
    (h : pushgateway_url snap = .ok (some url))
    (hs1 : strIsAscii s = true) (hs2 : ¬s = "") (hv : valueBad value = false) :
    send_metric snap (.str s) value ig vs job resp =
      (respResult ig resp,
       [⟨pyJsonStr url ++ "metrics/job/" ++ job,
         (s ++ " " ++ pyStr value ++ "\n").data.map Char.toNat, vs⟩]) := by
  unfold send_metric
  rw [h]
  dsimp only
  have hn : nameBad (.str s) = false := by
    simp [nameBad, hs1, hs2]
  rw [if_neg (by simp [hn]), if_neg (by simp [hv])]
  rw [show pyStr (PyValue.str s) = s from rfl, payload_encode s value hs1 hv]

theorem is_ready_false_elim (snap : Snapshot) (h : is_ready snap = .ok false) :
    pushgateway_url snap = .ok none := by
  unfold is_ready at h
  cases hu : pushgateway_url snap with
  | error e => rw [hu] at h; simp at h
  | ok o =>
    rw [hu] at h
    cases o with
    | none => rfl
    | some u => simp at h

theorem is_ready_true_elim (snap : Snapshot) (h : is_ready snap = .ok true) :
    ∃ u, pushgateway_url snap = .ok (some u) := by
  unfold is_ready at h
  cases hu : pushgateway_url snap with
  | error e => rw [hu] at h; simp at h
  | ok o =>
    rw [hu] at h
    cases o with
    | none => simp at h
    | some u => exact ⟨u, rfl⟩

theorem is_ready_true_well_formed (raw : String)
    (h : is_ready (some (some raw)) = .ok true) :
    ∃ fields u, loads raw = some (Json.obj fields) ∧ dictGet "url" fields = some u ∧
      u ≠ Json.null := by
  obtain ⟨u, hu⟩ := is_ready_true_elim _ h
  unfold pushgateway_url at hu
  dsimp only at hu
  cases hl : loads raw with
  | none => rw [hl] at hu; simp at hu
  | some j =>
    rw [hl] at hu
    cases j with
    | null => simp at hu
    | bool b => simp at hu
    | num n => simp at hu
    | str s => simp at hu
    | arr xs => simp at hu
    | obj fields =>
      dsimp only at hu
      cases hg : dictGet "url" fields with
      | none => rw [hg] at hu; simp at hu
      | some v =>
        rw [hg] at hu
        cases v with
        | null => simp at hu
        | bool b => exact ⟨fields, .bool b, rfl, hg, fun he => Json.noConfusion he⟩
        | num n => exact ⟨fields, .num n, rfl, hg, fun he => Json.noConfusion he⟩
        | str s => exact ⟨fields, .str s, rfl, hg, fun he => Json.noConfusion he⟩
        | arr xs => exact ⟨fields, .arr xs, rfl, hg, fun he => Json.noConfusion he⟩
        | obj f2 => exact ⟨fields, .obj f2, rfl, hg, fun he => Json.noConfusion he⟩

/-- Finiteness of a numeric value as the specification words it (a finite
real scalar); written from the specification for comparison with the
validation the code actually performs. -/
def isFiniteNumber : PyValue → Bool
  | .int _ => true
  | .bool _ => true
  | .float (.finite _ _) => true
  | _ => false

/-- C1: is_ready is false immediately after construction (no relation, or a
relation without published data), is true only when the current payload is
well-formed (valid JSON object carrying the url key with a non-null value),
and is false again once the relation is gone (the snapshot reverts to the
no-relation state); whenever is_ready is false, send_metric fails at once
with the not-ready ValueError, before any input validation or network
request, for every input and transport outcome; is_ready is a pure function
of the current snapshot. -/
theorem send_metric_readiness_gate :
    is_ready none = .ok false ∧
    is_ready (some none) = .ok false ∧
    (∀ raw, is_ready (some (some raw)) = .ok true →
      ∃ fields u, loads raw = some (Json.obj fields) ∧ dictGet "url" fields = some u ∧
        u ≠ Json.null) ∧
    (∀ e, is_ready (some (some (provider_payload e))) = .ok true) ∧
    (∀ snap name value ig vs job resp, is_ready snap = .ok false →
      send_metric snap name value ig vs job resp =
        (.error (.valueError notReadyMsg), [])) := by
  refine ⟨rfl, rfl, is_ready_true_well_formed, ?_, ?_⟩
  · intro e
    unfold is_ready
    rw [pushgateway_url_provider]
    rfl
  · intro snap name value ig vs job resp h
    exact send_metric_not_ready _ _ _ _ _ _ _ (is_ready_false_elim snap h)

theorem send_metric_readiness_gate_witness :
    (∃ fields u, loads (provider_payload "http://h:9876/") = some (Json.obj fields) ∧
      dictGet "url" fields = some u ∧ u ≠ Json.null) ∧
    send_metric none (.str "m") (.int 3) false true "default" .ok =
      (.error (.valueError notReadyMsg), []) :=
  ⟨send_metric_readiness_gate.2.2.1 (provider_payload "http://h:9876/")
      (send_metric_readiness_gate.2.2.2.1 "http://h:9876/"),
   send_metric_readiness_gate.2.2.2.2 none (.str "m") (.int 3) false true "default" .ok rfl⟩

/-- C2 counterexample: with ignore_error set, a transport-level failure of
the push request is not swallowed: urlopen raises URLError, the handler
catches only HTTPError, so send_metric raises instead of returning
success. -/
theorem ignore_error_transport_counterexample :
    send_metric (some (some (provider_payload "http://h:9876/"))) (.str "m") (.int 3)
      true true "default" .transport =
      (.error .urlError,
       [⟨"http://h:9876/metrics/job/default", ("m 3\n").data.map Char.toNat, true⟩]) := rfl

/-- C2 amended: ignore_error suppresses exactly the HTTPError raised for an
error response: with ignore_error set an HTTP error response yields
success, without it the error surfaces; a transport failure (URLError)
surfaces regardless of ignore_error; and the flag never affects readiness
or validation failures, which raise identically for both flag values. -/
theorem ignore_error_swallows_http_only :
    (∀ snap url s value vs job c, pushgateway_url snap = .ok (some url) →
      strIsAscii s = true → ¬s = "" → valueBad value = false →
      (send_metric snap (.str s) value true vs job (.httpErr c)).1 = .ok ()) ∧
    (∀ snap url s value vs job c, pushgateway_url snap = .ok (some url) →
      strIsAscii s = true → ¬s = "" → valueBad value = false →
      (send_metric snap (.str s) value false vs job (.httpErr c)).1 =
        .error (.httpError c)) ∧
    (∀ snap url s value ig vs job, pushgateway_url snap = .ok (some url) →
      strIsAscii s = true → ¬s = "" → valueBad value = false →
      (send_metric snap (.str s) value ig vs job .transport).1 = .error .urlError) ∧
    (∀ snap name value ig vs job resp, pushgateway_url snap = .ok none →
      send_metric snap name value ig vs job resp =
        (.error (.valueError notReadyMsg), [])) ∧
    (∀ snap url name value ig vs job resp, pushgateway_url snap = .ok (some url) →
      nameBad name = true →
      send_metric snap name value ig vs job resp =
        (.error (.valueError badNameMsg), [])) := by
  refine ⟨?_, ?_, ?_, ?_, ?_⟩
  · intro snap url s value vs job c h h1 h2 h3
    rw [send_metric_sends snap url s value true vs job (.httpErr c) h h1 h2 h3]
    simp [respResult]
  · intro snap url s value vs job c h h1 h2 h3
    rw [send_metric_sends snap url s value false vs job (.httpErr c) h h1 h2 h3]
    simp [respResult]
  · intro snap url s value ig vs job h h1 h2 h3
    rw [send_metric_sends snap url s value ig vs job .transport h h1 h2 h3]
    simp [respResult]
  · intro snap name value ig vs job resp h
    exact send_metric_not_ready _ _ _ _ _ _ _ h
  · intro snap url name value ig vs job resp h hn
    exact send_metric_bad_name _ url _ _ _ _ _ _ h hn

theorem ignore_error_swallows_http_only_witness :
    (send_metric (some (some (provider_payload "http://h:9876/"))) (.str "m") (.int 3)
      true true "default" (.httpErr 400)).1 = .ok () ∧
    (send_metric (some (some (provider_payload "http://h:9876/"))) (.str "m") (.int 3)
      false true "default" (.httpErr 400)).1 = .error (.httpError 400) ∧
    (send_metric (some (some (provider_payload "http://h:9876/"))) (.str "m") (.int 3)
      true true "default" .transport).1 = .error .urlError ∧
    send_metric (some none) (.str "m") (.int 3) true true "default" .ok =
      (.error (.valueError notReadyMsg), []) ∧
    send_metric (some (some (provider_payload "http://h:9876/"))) (.str "") (.int 3)
      true true "default" .ok = (.error (.valueError badNameMsg), []) :=
  ⟨ignore_error_swallows_http_only.1 _ _ "m" (.int 3) true "default" 400 rfl rfl
      (by decide) rfl,
   ignore_error_swallows_http_only.2.1 _ _ "m" (.int 3) true "default" 400 rfl rfl
      (by decide) rfl,
   ignore_error_swallows_http_only.2.2.1 _ _ "m" (.int 3) true true "default" rfl rfl
      (by decide) rfl,
   ignore_error_swallows_http_only.2.2.2.1 (some none) (.str "m") (.int 3) true true
      "default" .ok rfl,
   ignore_error_swallows_http_only.2.2.2.2 _ _ (.str "") (.int 3) true true "default" .ok
      rfl rfl⟩

/-- C3 counterexample: the payload "[]" is valid JSON that lacks the url
key, yet the decode path raises TypeError out of is_ready instead of
leaving it false: indexing the decoded list with a string key raises
TypeError, and only JSONDecodeError and KeyError are caught. -/
theorem decode_non_object_raises :
    loads "[]" = some (Json.arr []) ∧
    pushgateway_url (some (some "[]")) = .error .typeError ∧
    is_ready (some (some "[]")) = .error .typeError :=
  ⟨rfl, rfl, rfl⟩

/-- C3 amended: for a payload that is absent, is not valid JSON, or is a
valid JSON object lacking the url key, the decode path yields None without
raising, and an absent payload is the distinct valid outcome None rather
than an error; however a payload that is valid JSON but not an object
escapes the decode path with TypeError. -/
theorem decode_path_error_handling :
    pushgateway_url none = .ok none ∧
    pushgateway_url (some none) = .ok none ∧
    (∀ raw, loads raw = none → pushgateway_url (some (some raw)) = .ok none) ∧
    (∀ raw fields, loads raw = some (Json.obj fields) → dictGet "url" fields = none →
      pushgateway_url (some (some raw)) = .ok none) ∧
    (∀ raw j, loads raw = some j → (∀ fields, j ≠ Json.obj fields) →
      pushgateway_url (some (some raw)) = .error .typeError) := by
  refine ⟨rfl, rfl, pushgateway_url_bad_json, fun raw fields h hk =>
    pushgateway_url_missing_key raw fields h hk, ?_⟩
  intro raw j h hobj
  unfold pushgateway_url
  dsimp only
  rw [h]
  cases j with
  | null => rfl
  | bool b => rfl
  | num n => rfl
  | str s => rfl
  | arr xs => rfl
  | obj fields => exact absurd rfl (hobj fields)

theorem decode_path_error_handling_witness :
    pushgateway_url (some (some "this is not json")) = .ok none ∧
    pushgateway_url (some (some "\x7b\"foo\": \"bar\"\x7d")) = .ok none ∧
    pushgateway_url (some (some "[]")) = .error .typeError :=
  ⟨decode_path_error_handling.2.2.1 "this is not json" rfl,
   decode_path_error_handling.2.2.2.1 "\x7b\"foo\": \"bar\"\x7d" [("foo", Json.str "bar")]
      rfl rfl,
   decode_path_error_handling.2.2.2.2 "[]" (Json.arr [])
      rfl (fun _ he => Json.noConfusion he)⟩

/-- C4: when the requirer is ready and both inputs pass validation,
send_metric issues exactly one HTTP POST, to the concatenation of the
published base url with metrics/job/ and the job name (whose default is
the string default), with body the ASCII bytes of the exact line made of
the name, a space, the rendered value and a newline; the request list is
the same singleton for every transport outcome, so no retries happen on
any outcome. -/
theorem send_metric_single_post :
    default_job_name = "default" ∧
    (∀ snap url s value ig vs job resp, pushgateway_url snap = .ok (some url) →
      strIsAscii s = true → ¬s = "" → valueBad value = false →
      send_metric snap (.str s) value ig vs job resp =
        (respResult ig resp,
         [⟨pyJsonStr url ++ "metrics/job/" ++ job,
           (s ++ " " ++ pyStr value ++ "\n").data.map Char.toNat, vs⟩])) :=
  ⟨rfl, fun snap url s value ig vs job resp h h1 h2 h3 =>
    send_metric_sends snap url s value ig vs job resp h h1 h2 h3⟩

theorem send_metric_single_post_witness :
    send_metric (some (some (provider_payload "http://h:9876/"))) (.str "test_metric")
      (.int 314) false true default_job_name (.httpErr 400) =
      (.error (.httpError 400),
       [⟨"http://h:9876/metrics/job/default", ("test_metric 314\n").data.map Char.toNat,
         true⟩]) := by
  rw [send_metric_single_post.2 _ (Json.str "http://h:9876/") "test_metric" (.int 314)
    false true default_job_name (.httpErr 400) (pushgateway_url_provider "http://h:9876/")
    rfl (by decide) rfl]
  rfl

/-- C5: for every name rejected by validation (empty, not a string, or
containing a non-ASCII code point), send_metric performs zero network
calls in every state, and when the requirer is ready it fails with the
invalid-name ValueError; validation runs before URL construction and
before the request, so no request is ever issued from a rejected name.
The rejection predicate holds exactly for non-strings, the empty string,
and non-ASCII strings. -/
theorem send_metric_bad_name_no_network :
    (∀ s, nameBad (.str s) = (!strIsAscii s || s == "")) ∧
    (∀ name, (∀ s, name ≠ .str s) → nameBad name = true) ∧
    (∀ snap name value ig vs job resp, nameBad name = true →
      (send_metric snap name value ig vs job resp).2 = []) ∧
    (∀ snap url name value ig vs job resp, pushgateway_url snap = .ok (some url) →
      nameBad name = true →
      send_metric snap name value ig vs job resp =
        (.error (.valueError badNameMsg), [])) := by
  refine ⟨fun s => rfl, ?_, ?_, ?_⟩
  · intro name hname
    cases name with
    | str s => exact absurd rfl (hname s)
    | int i => rfl
    | bool b => rfl
    | float f => rfl
    | complex re im => rfl
    | noneV => rfl
  · intro snap name value ig vs job resp hn
    cases hu : pushgateway_url snap with
    | error e => rw [send_metric_decode_raises snap name value ig vs job resp e hu]
    | ok o =>
      cases o with
      | none => rw [send_metric_not_ready snap name value ig vs job resp hu]
      | some url => rw [send_metric_bad_name snap url name value ig vs job resp hu hn]
  · intro snap url name value ig vs job resp hu hn
    exact send_metric_bad_name snap url name value ig vs job resp hu hn

theorem send_metric_bad_name_no_network_witness :
    nameBad (.int 123) = true ∧
    (send_metric none (.str "moño") (.int 3) false true "default" .ok).2 = [] ∧
    send_metric (some (some (provider_payload "http://h:9876/"))) (.str "moño") (.int 3)
      false true "default" .ok = (.error (.valueError badNameMsg), []) :=
  ⟨send_metric_bad_name_no_network.2.1 (.int 123) (fun s h => PyValue.noConfusion h),
   send_metric_bad_name_no_network.2.2.1 none (.str "moño") (.int 3) false true "default"
      .ok (by decide),
   send_metric_bad_name_no_network.2.2.2 _ (Json.str "http://h:9876/") (.str "moño")
      (.int 3) false true "default" .ok (pushgateway_url_provider "http://h:9876/")
      (by decide)⟩

/-- C6 counterexample: the non-finite float inf is accepted by
send_metric value validation (an isinstance check with no finiteness
test), and when ready the metric is posted with body name space inf, so
acceptance is not limited to finite values. -/
theorem value_validation_accepts_inf :
    valueBad (.float .inf) = false ∧
    isFiniteNumber (.float .inf) = false ∧
    send_metric (some (some (provider_payload "http://h:9876/"))) (.str "m")
      (.float .inf) false true "default" .ok =
      (.ok (), [⟨"http://h:9876/metrics/job/default", ("m inf\n").data.map Char.toNat,
        true⟩]) :=
  ⟨rfl, rfl, rfl⟩

/-- C6 amended: value validation accepts a metric value exactly when it is
a float or an int (bools included, as a bool is an int in the host
language), with no finiteness requirement, so the non-finite floats pass;
text and complex inputs are rejected with the invalid-value ValueError
before any request. -/
theorem value_validation_isinstance :
    (∀ i : Int, valueBad (.int i) = false) ∧
    (∀ b : Bool, valueBad (.bool b) = false) ∧
    (∀ f : PFloat, valueBad (.float f) = false) ∧
    (∀ s : String, valueBad (.str s) = true) ∧
    (∀ re im : Int, valueBad (.complex re im) = true) ∧
    (∀ snap url name value ig vs job resp, pushgateway_url snap = .ok (some url) →
      nameBad name = false → valueBad value = true →
      send_metric snap name value ig vs job resp =
        (.error (.valueError badValueMsg), [])) :=
  ⟨fun _ => rfl, fun _ => rfl, fun _ => rfl, fun _ => rfl, fun _ _ => rfl,
   fun snap url name value ig vs job resp h hn hv =>
     send_metric_bad_value snap url name value ig vs job resp h hn hv⟩

theorem value_validation_isinstance_witness :
    send_metric (some (some (provider_payload "http://h:9876/"))) (.str "m")
      (.str "a string") false true "default" .ok =
      (.error (.valueError badValueMsg), []) :=
  value_validation_isinstance.2.2.2.2.2 _ (Json.str "http://h:9876/") (.str "m")
    (.str "a string") false true "default" .ok (pushgateway_url_provider "http://h:9876/")
    rfl rfl

/-- C7: the codec round-trips: for every endpoint string e, the provider
publishes the JSON dump of the object with the url key bound to e under
the push-endpoint key, and the requirer decode path recovers exactly e
from that payload. -/
theorem codec_round_trip : ∀ e : String,
    loads (provider_payload e) = some (Json.obj [("url", Json.str e)]) ∧
    pushgateway_url (some (some (provider_payload e))) = .ok (some (Json.str e)) ∧
    is_ready (some (some (provider_payload e))) = .ok true := by
  intro e
  refine ⟨loads_provider_payload e, pushgateway_url_provider e, ?_⟩
  unfold is_ready
  rw [pushgateway_url_provider]
  rfl

/-- C8 counterexample: the requirer decoder does not support the hostname
and port wire shape: on that payload it finds no url key, logs and returns
None, leaving the requirer not ready instead of yielding the built
endpoint. -/
theorem requirer_rejects_host_port_shape :
    pushgateway_url (some (some (host_port_payload "h" 9876))) = .ok none ∧
    is_ready (some (some (host_port_payload "h" 9876))) = .ok false :=
  ⟨rfl, rfl⟩

/-- C8 amended: the two wire shapes are supported by two different
consumers, one shape each: the library requirer decodes the url shape to
the published url and yields None on the hostname and port shape, while
the testing charm builds the endpoint from hostname and port and raises
KeyError on the url shape. -/
theorem wire_shapes_split_across_decoders : ∀ (u h : String) (p : Nat),
    pushgateway_url (some (some (provider_payload u))) = .ok (some (Json.str u)) ∧
    pushgateway_url (some (some (host_port_payload h p))) = .ok none ∧
    tcharm_push_relation_url (some (host_port_payload h p)) =
      .ok (some ("http://" ++ h ++ ":" ++ (⟨natToDec p⟩ : String) ++ "/")) ∧
    tcharm_push_relation_url (some (provider_payload u)) = .error .keyError :=
  fun u h p =>
    ⟨pushgateway_url_provider u, pushgateway_url_host_port h p,
     tcharm_host_port_url h p, tcharm_url_shape_keyerror u⟩

/-- C9: booleans pass value validation (bool is a subclass of int in the
host language), so sending True does not fail with an invalid-value error
and, when the requirer is ready, posts the ASCII bytes of the line made of
the name, a space, and True. -/
theorem bool_value_accepted :
    valueBad (.bool true) = false ∧
    valueBad (.bool false) = false ∧
    send_metric (some (some (provider_payload "http://h:9876/"))) (.str "n")
      (.bool true) false true "default" .ok =
      (.ok (), [⟨"http://h:9876/metrics/job/default", ("n True\n").data.map Char.toNat,
        true⟩]) :=
  ⟨rfl, rfl, rfl⟩

/-- C10: for every name accepted by validation (a non-empty all-ASCII
string) and every value accepted by validation, the ASCII encoding of the
payload line is total (never raises an encoding error), and once
validation succeeds the result of send_metric is exactly the result of the
HTTP request, so the request is the only remaining failure source. -/
theorem payload_encoding_total :
    ∀ snap url s value ig vs job resp, pushgateway_url snap = .ok (some url) →
      strIsAscii s = true → ¬s = "" → valueBad value = false →
      encodeAscii (s ++ " " ++ pyStr value ++ "\n") =
        some ((s ++ " " ++ pyStr value ++ "\n").data.map Char.toNat) ∧
      (send_metric snap (.str s) value ig vs job resp).1 = respResult ig resp := by
  intro snap url s value ig vs job resp h h1 h2 h3
  refine ⟨payload_encode s value h1 h3, ?_⟩
  rw [send_metric_sends snap url s value ig vs job resp h h1 h2 h3]

theorem payload_encoding_total_witness :
    encodeAscii ("m" ++ " " ++ pyStr (.float (.finite 314 (-2))) ++ "\n") =
      some (("m" ++ " " ++ pyStr (.float (.finite 314 (-2))) ++ "\n").data.map Char.toNat) ∧
    (send_metric (some (some (provider_payload "http://h:9876/"))) (.str "m")
      (.float (.finite 314 (-2))) false true "default" .transport).1 = .error .urlError :=
  payload_encoding_total _ (Json.str "http://h:9876/") "m" (.float (.finite 314 (-2)))
    false true "default" .transport (pushgateway_url_provider "http://h:9876/")
    rfl (by decide) rfl
